import Mathlib

/-!
# gastown: `gt done` (merge-queue submission) and `gt start` (fleet bring-up)

A shallow embedding of `internal/cmd/done.go` (`runDone`) and
`internal/cmd/start.go` (`runStart`).

Both commands are sequential programs over external collaborators (workspace
locator, git, the beads issue store, tmux).  The collaborators are fields of an
environment record; each one that can touch the outside world is a function of
an explicit world state `σ` and returns the new state.  A run returns the Go
`error` result, the ordered list of collaborator calls it made (with the values
they returned), the text written to standard output, and the final state.
-/

namespace Gastown

/-! ## Go errors -/

/-- Go `error` values: `errorString` is what `fmt.Errorf` builds from a format
without `%w`, `wrapError` what it builds from a format with `%w` (the formatted
message together with the wrapped error). -/
inductive GoError where
  | errorString (s : String)
  | wrapError (msg : String) (err : GoError)
  deriving DecidableEq, Repr

/-- The method `Error()`. -/
def GoError.Error : GoError → String
  | .errorString s => s
  | .wrapError msg _ => msg

/-- The method `Unwrap()`. -/
def GoError.Unwrap : GoError → Option GoError
  | .errorString _ => none
  | .wrapError _ err => some err

/-- The call `fmt.Errorf(pre + "%w", err)`. -/
def Errorf_w (pre : String) (err : GoError) : GoError :=
  .wrapError (pre ++ err.Error) err

/-! ## Data -/

/-- Modelled from the spec: the result type of `parseBranchName`, whose
declaration is not in the two source files; `runDone` reads `Issue` and
`Worker`. -/
structure BranchInfo where
  Issue : String
  Worker : String
  deriving DecidableEq, Repr

/-- Modelled from the spec: `beads.MRFields`, whose declaration is not in the
two source files; these are the five fields `runDone` sets. -/
structure MRFields where
  Branch : String
  Target : String
  SourceIssue : String
  Worker : String
  Rig : String
  deriving DecidableEq, Repr

/-- Modelled from the spec: `beads.Issue`, whose declaration is not in the two
source files; `runDone` reads `Priority` and `ID` (`Type_` is the Go field
`Type`, a reserved word here). -/
structure Issue where
  ID : String
  Type_ : String
  Priority : Int
  Title : String
  Description : String
  deriving DecidableEq, Repr

/-- Modelled from the spec: `beads.CreateOptions`, whose declaration is not in
the two source files; these are the four fields `runDone` sets (`Type_` is the
Go field `Type`, a reserved word here). -/
structure CreateOptions where
  Title : String
  Type_ : String
  Priority : Int
  Description : String
  deriving DecidableEq, Repr

/-- The result of one run of a command. -/
structure Run (C σ : Type) where
  err : Option GoError
  calls : List C
  out : List String
  state : σ

/-! ## `gt done` -/

/-- One collaborator call made by `runDone`, with its arguments and what it
returned.  `cwd` stands for the handles `git.NewGit(cwd)` and `beads.New(cwd)`. -/
inductive DoneCall where
  | FindFromCwdOrError (r : Except GoError String)
  | findCurrentRig (townRoot : String) (r : Except GoError String)
  | Getwd (r : Except GoError String)
  | CurrentBranch (cwd : String) (r : Except GoError String)
  | parseBranchName (branch : String) (info : BranchInfo)
  | detectIntegrationBranch (cwd issueID : String) (autoTarget : String) (err : Option GoError)
  | Show (cwd id : String) (r : Except GoError Issue)
  | FormatMRFields (fields : MRFields) (r : String)
  | Create (cwd : String) (opts : CreateOptions) (r : Except GoError Issue)

/-- The collaborators of `runDone`.  None of them is defined in the two source
files, so each is a parameter.  `detectIntegrationBranch` returns a Go pair
`(string, error)`; the functions whose error result makes `runDone` return, or
whose value is only read when the error is nil, return `Except`.
`findCurrentRig` returns three values of which `runDone` drops the second.
`parseBranchName` and `FormatMRFields` have no error result and are pure. -/
structure DoneEnv (σ : Type) where
  FindFromCwdOrError : σ → Except GoError String × σ
  findCurrentRig : String → σ → Except GoError String × σ
  Getwd : σ → Except GoError String × σ
  CurrentBranch : String → σ → Except GoError String × σ
  parseBranchName : String → BranchInfo
  detectIntegrationBranch : String → String → σ → (String × Option GoError) × σ
  Show : String → String → σ → Except GoError Issue × σ
  Create : String → CreateOptions → σ → Except GoError Issue × σ
  FormatMRFields : MRFields → String
  BoldRender : String → String
  DimRender : String → String

/-- The function `runDone` of `internal/cmd/done.go`; `doneIssue` and
`donePriority` are the values of the flags `--issue` and `--priority`. -/
def runDone {σ : Type} (E : DoneEnv σ) (doneIssue : String) (donePriority : Int) (s0 : σ) :
    Run DoneCall σ :=
  -- Find workspace
  match E.FindFromCwdOrError s0 with
  | (.error err, s1) =>
    ⟨some (Errorf_w "not in a Gas Town workspace: " err),
      [.FindFromCwdOrError (.error err)], [], s1⟩
  | (.ok townRoot, s1) =>
  let t1 := [DoneCall.FindFromCwdOrError (.ok townRoot)]
  -- Find current rig
  match E.findCurrentRig townRoot s1 with
  | (.error err, s2) => ⟨some err, t1 ++ [.findCurrentRig townRoot (.error err)], [], s2⟩
  | (.ok rigName, s2) =>
  let t2 := t1 ++ [.findCurrentRig townRoot (.ok rigName)]
  -- Initialize git for the current directory
  match E.Getwd s2 with
  | (.error err, s3) =>
    ⟨some (Errorf_w "getting current directory: " err), t2 ++ [.Getwd (.error err)], [], s3⟩
  | (.ok cwd, s3) =>
  let t3 := t2 ++ [.Getwd (.ok cwd)]
  -- Get current branch
  match E.CurrentBranch cwd s3 with
  | (.error err, s4) =>
    ⟨some (Errorf_w "getting current branch: " err),
      t3 ++ [.CurrentBranch cwd (.error err)], [], s4⟩
  | (.ok branch, s4) =>
  let t4 := t3 ++ [.CurrentBranch cwd (.ok branch)]
  if branch = "main" ∨ branch = "master" then
    ⟨some (.errorString "cannot submit main/master branch to merge queue"), t4, [], s4⟩
  else
  -- Parse branch info
  let info := E.parseBranchName branch
  let t5 := t4 ++ [.parseBranchName branch info]
  -- Override with explicit flags
  let issueID := if doneIssue = "" then info.Issue else doneIssue
  let worker := info.Worker
  if issueID = "" then
    ⟨some (.errorString ("cannot determine source issue from branch '" ++ branch
        ++ "'; use --issue to specify")), t5, [], s4⟩
  else
  -- Determine target branch (auto-detect integration branch if applicable)
  match E.detectIntegrationBranch cwd issueID s4 with
  | ((autoTarget, derr), s5) =>
  let t6 := t5 ++ [.detectIntegrationBranch cwd issueID autoTarget derr]
  let target := if derr = none ∧ autoTarget ≠ "" then autoTarget else "main"
  -- Get source issue for priority inheritance
  let (priority, t7, s6) : Int × List DoneCall × σ :=
    if donePriority ≥ 0 then
      (donePriority, t6, s5)
    else
      -- Try to inherit from source issue
      match E.Show cwd issueID s5 with
      | (.error err, s6) => (2, t6 ++ [.Show cwd issueID (.error err)], s6)
      | (.ok sourceIssue, s6) =>
        (sourceIssue.Priority, t6 ++ [.Show cwd issueID (.ok sourceIssue)], s6)
  -- Build title
  let title := "Merge: " ++ issueID
  -- Build description with MR fields
  let mrFields : MRFields :=
    { Branch := branch, Target := target, SourceIssue := issueID, Worker := worker,
      Rig := rigName }
  let description := E.FormatMRFields mrFields
  let t8 := t7 ++ [.FormatMRFields mrFields description]
  -- Create the merge-request issue
  let createOpts : CreateOptions :=
    { Title := title, Type_ := "merge-request", Priority := priority,
      Description := description }
  match E.Create cwd createOpts s6 with
  | (.error err, s7) =>
    ⟨some (Errorf_w "creating merge request: " err),
      t8 ++ [.Create cwd createOpts (.error err)], [], s7⟩
  | (.ok issue, s7) =>
    -- Success output
    ⟨none, t8 ++ [.Create cwd createOpts (.ok issue)],
      [E.BoldRender "✓" ++ " Work submitted to merge queue\n",
       "  MR ID: " ++ E.BoldRender issue.ID ++ "\n",
       "  Source: " ++ branch ++ "\n",
       "  Target: " ++ target ++ "\n",
       "  Issue: " ++ issueID ++ "\n"]
      ++ (if worker ≠ "" then ["  Worker: " ++ worker ++ "\n"] else [])
      ++ ["  Priority: P" ++ toString priority ++ "\n",
          "\n",
          E.DimRender "The Refinery will process your merge request." ++ "\n"],
      s7⟩

/-- The calls on the issue store: integration-branch detection (which is handed
the store), `Show` and `Create`. -/
def DoneCall.isStore : DoneCall → Bool
  | .detectIntegrationBranch _ _ _ _ => true
  | .Show _ _ _ => true
  | .Create _ _ _ => true
  | _ => false

/-- The calls of `parseBranchName`. -/
def DoneCall.isParse : DoneCall → Bool
  | .parseBranchName _ _ => true
  | _ => false

/-- The `Create` calls of a call list, in order: options and outcome. -/
def creates : List DoneCall → List (CreateOptions × Except GoError Issue)
  | [] => []
  | .Create _ opts r :: cs => (opts, r) :: creates cs
  | _ :: cs => creates cs

/-- The records handed to `FormatMRFields`, in order. -/
def formatted : List DoneCall → List MRFields
  | [] => []
  | .FormatMRFields f _ :: cs => f :: formatted cs
  | _ :: cs => formatted cs

/-- The run got as far as the branch: workspace, rig, working directory and
current branch were all resolved, leaving the world in state `s4`. -/
def ReachesBranch {σ : Type} (E : DoneEnv σ) (s0 : σ) (rigName cwd branch : String) (s4 : σ) :
    Prop :=
  ∃ townRoot s1 s2 s3,
    E.FindFromCwdOrError s0 = (.ok townRoot, s1) ∧
    E.findCurrentRig townRoot s1 = (.ok rigName, s2) ∧
    E.Getwd s2 = (.ok cwd, s3) ∧
    E.CurrentBranch cwd s3 = (.ok branch, s4)

/-- The source issue id `runDone` settles on: the flag, else the parsed one. -/
def resolvedIssue {σ : Type} (E : DoneEnv σ) (doneIssue branch : String) : String :=
  if doneIssue = "" then (E.parseBranchName branch).Issue else doneIssue

/-! ## `gt start` -/

/-- One collaborator call made by `runStart`, with its arguments and what it
returned.  `HasSession` returns a Go pair `(bool, error)`, the two start
functions return an `error`. -/
inductive StartCall where
  | FindFromCwdOrError (r : Except GoError String)
  | HasSession (name : String) (running : Bool) (err : Option GoError)
  | startMayorSession (err : Option GoError)
  | startDeaconSession (err : Option GoError)

/-- The collaborators of `runStart`.  None of them is defined in the two source
files, so each is a parameter, the two session-name constants included; the
handle `tmux.NewTmux()` is part of the world state. -/
structure StartEnv (σ : Type) where
  FindFromCwdOrError : σ → Except GoError String × σ
  MayorSessionName : String
  DeaconSessionName : String
  HasSession : String → σ → (Bool × Option GoError) × σ
  startMayorSession : σ → Option GoError × σ
  startDeaconSession : σ → Option GoError × σ
  BoldRender : String → String
  DimRender : String → String

/-- The function `runStart` of `internal/cmd/start.go`. -/
def runStart {σ : Type} (E : StartEnv σ) (s0 : σ) : Run StartCall σ :=
  -- Verify we're in a Gas Town workspace
  match E.FindFromCwdOrError s0 with
  | (.error err, s1) =>
    ⟨some (Errorf_w "not in a Gas Town workspace: " err),
      [.FindFromCwdOrError (.error err)], [], s1⟩
  | (.ok townRoot, s1) =>
  let t1 := [StartCall.FindFromCwdOrError (.ok townRoot)]
  let o1 := ["Starting Gas Town from " ++ E.DimRender townRoot ++ "\n\n"]
  -- Start Mayor first (so Deacon sees it as up)
  match E.HasSession E.MayorSessionName s1 with
  | ((mayorRunning, qerr), s2) =>
  let t2 := t1 ++ [.HasSession E.MayorSessionName mayorRunning qerr]
  let mayor : Option GoError × List StartCall × List String × σ :=
    if mayorRunning then
      (none, t2, o1 ++ ["  " ++ E.DimRender "○" ++ " Mayor already running\n"], s2)
    else
      let o2 := o1 ++ ["  " ++ E.BoldRender "→" ++ " Starting Mayor...\n"]
      match E.startMayorSession s2 with
      | (some err, s3) => (some err, t2 ++ [.startMayorSession (some err)], o2, s3)
      | (none, s3) =>
        (none, t2 ++ [.startMayorSession none],
          o2 ++ ["  " ++ E.BoldRender "✓" ++ " Mayor started\n"], s3)
  match mayor with
  | (some err, t3, o3, s3) => ⟨some (Errorf_w "starting Mayor: " err), t3, o3, s3⟩
  | (none, t3, o3, s3) =>
  -- Start Deacon (health monitor)
  match E.HasSession E.DeaconSessionName s3 with
  | ((deaconRunning, qerr2), s4) =>
  let t4 := t3 ++ [.HasSession E.DeaconSessionName deaconRunning qerr2]
  let deacon : Option GoError × List StartCall × List String × σ :=
    if deaconRunning then
      (none, t4, o3 ++ ["  " ++ E.DimRender "○" ++ " Deacon already running\n"], s4)
    else
      let o4 := o3 ++ ["  " ++ E.BoldRender "→" ++ " Starting Deacon...\n"]
      match E.startDeaconSession s4 with
      | (some err, s5) => (some err, t4 ++ [.startDeaconSession (some err)], o4, s5)
      | (none, s5) =>
        (none, t4 ++ [.startDeaconSession none],
          o4 ++ ["  " ++ E.BoldRender "✓" ++ " Deacon started\n"], s5)
  match deacon with
  | (some err, t5, o5, s5) => ⟨some (Errorf_w "starting Deacon: " err), t5, o5, s5⟩
  | (none, t5, o5, s5) =>
    ⟨none, t5,
      o5 ++ ["\n",
        E.BoldRender "✓" ++ " Gas Town is running\n",
        "\n",
        "  Attach to Mayor:  " ++ E.DimRender "gt mayor attach" ++ "\n",
        "  Attach to Deacon: " ++ E.DimRender "gt deacon attach" ++ "\n",
        "  Check status:     " ++ E.DimRender "gt status" ++ "\n"],
      s5⟩

/-- The session-start invocations. -/
def StartCall.isStart : StartCall → Bool
  | .startMayorSession _ => true
  | .startDeaconSession _ => true
  | _ => false

/-- The Deacon calls: the `HasSession` query for the Deacon session and
`startDeaconSession`. -/
def StartCall.isDeacon {σ : Type} (E : StartEnv σ) : StartCall → Bool
  | .HasSession name _ _ => decide (name = E.DeaconSessionName)
  | .startDeaconSession _ => true
  | _ => false

/-- The calls that establish the Mayor as up: `HasSession` reporting it running,
or `startMayorSession` returning no error. -/
def StartCall.mayorUp {σ : Type} (E : StartEnv σ) : StartCall → Bool
  | .HasSession name true _ => decide (name = E.MayorSessionName)
  | .startMayorSession none => true
  | _ => false

/-- A Boolean check of the ordering rule along a call list: no Deacon call
while the Mayor has not been established as up (`up` tells whether it has been
so far). -/
def deaconAfterMayor {σ : Type} (E : StartEnv σ) : Bool → List StartCall → Bool
  | _, [] => true
  | up, c :: cs => (!c.isDeacon E || up) && deaconAfterMayor E (up || c.mayorUp E) cs

/-- `HasSession` reports the session `name` as running in state `s`. -/
def Up {σ : Type} (E : StartEnv σ) (name : String) (s : σ) : Prop :=
  (E.HasSession name s).1.1 = true

/-- A session host in which a successful start makes `HasSession` report true
for that session, and in which a session reported as running stays so across
every later operation of the host (nothing else stops sessions in between). -/
structure SessionsPersist {σ : Type} (E : StartEnv σ) : Prop where
  mayorStarted : ∀ s, (E.startMayorSession s).1 = none →
    Up E E.MayorSessionName (E.startMayorSession s).2
  deaconStarted : ∀ s, (E.startDeaconSession s).1 = none →
    Up E E.DeaconSessionName (E.startDeaconSession s).2
  keepFind : ∀ name s, Up E name s → Up E name (E.FindFromCwdOrError s).2
  keepQuery : ∀ name other s, Up E name s → Up E name (E.HasSession other s).2
  keepMayor : ∀ name s, Up E name s → Up E name (E.startMayorSession s).2
  keepDeacon : ∀ name s, Up E name s → Up E name (E.startDeaconSession s).2

/-- The environment `E` with the error result of every `HasSession` query
replaced by nil (the Boolean and the new state are kept). -/
def silenceQueries {σ : Type} (E : StartEnv σ) : StartEnv σ :=
  { E with
    HasSession := fun name s =>
      (((E.HasSession name s).1.1, none), (E.HasSession name s).2) }

/-! ## Sample worlds

Concrete collaborators on which the theorems are instantiated. -/

/-- A sample branch parser: it knows the branch `gt-abc-alice` and returns empty
fields for every other branch. -/
def sampleParse (branch : String) : BranchInfo :=
  if branch = "gt-abc-alice" then ⟨"gt-abc", "alice"⟩ else ⟨"", ""⟩

/-- A sample description encoding, one `Key: value` line per field. -/
def sampleFormat (f : MRFields) : String :=
  "Branch: " ++ f.Branch ++ "\nTarget: " ++ f.Target ++ "\nSourceIssue: " ++ f.SourceIssue
    ++ "\nWorker: " ++ f.Worker ++ "\nRig: " ++ f.Rig

/-- A sample world for `gt done`: the checked-out branch, the answers of the
integration-branch resolver and of `Show`, and the error `Create` fails with,
if any.  The state is the list of options of the issues created so far. -/
def sampleDone (branch : String) (detect : String × Option GoError)
    (shown : Except GoError Issue) (createErr : Option GoError) :
    DoneEnv (List CreateOptions) where
  FindFromCwdOrError s := (.ok "/town", s)
  findCurrentRig _ s := (.ok "gastown", s)
  Getwd s := (.ok "/town/gastown/polecats/alice", s)
  CurrentBranch _ s := (.ok branch, s)
  parseBranchName := sampleParse
  detectIntegrationBranch _ _ s := (detect, s)
  Show _ _ s := (shown, s)
  Create _ opts s :=
    match createErr with
    | some e => (.error e, s)
    | none => (.ok ⟨"gt-mr1", opts.Type_, opts.Priority, opts.Title, opts.Description⟩,
        s ++ [opts])
  FormatMRFields := sampleFormat
  BoldRender s := s
  DimRender s := s

/-- A source issue of priority 1, within the range 0..4. -/
def sampleIssue : Issue := ⟨"gt-abc", "task", 1, "Fix the parser", ""⟩

/-- The state of a sample session host: the sessions that are running, and the
sessions whose next start attempt fails (once). -/
structure Host where
  running : List String
  failNext : List String
  deriving DecidableEq, Repr

/-- Starting a session on the sample host: a pending failure is consumed and
reported, otherwise the session is added to the running ones. -/
def sampleStartSession (name : String) (h : Host) : Option GoError × Host :=
  if name ∈ h.failNext then
    (some (.errorString ("tmux: cannot create session " ++ name)),
      { h with failNext := h.failNext.erase name })
  else
    (none, { h with running := name :: h.running })

/-- A sample session host; `queryErr` is the error every `HasSession` query
returns next to its Boolean (nil for none). -/
def sampleStart (queryErr : Option GoError) : StartEnv Host where
  FindFromCwdOrError s := (.ok "/town", s)
  MayorSessionName := "gt-mayor"
  DeaconSessionName := "gt-deacon"
  HasSession name h := ((decide (name ∈ h.running), queryErr), h)
  startMayorSession := sampleStartSession "gt-mayor"
  startDeaconSession := sampleStartSession "gt-deacon"
  BoldRender s := s
  DimRender s := s

/-! ## Theorems: `gt done` -/

/-- C2: on branch `main` or `master` the run fails with the trunk-rejection
error whatever the flags and the store are, and its calls contain neither a
`parseBranchName` call nor any call on the issue store. -/
theorem runDone_trunk_rejected {σ : Type} (E : DoneEnv σ) (doneIssue : String)
    (donePriority : Int) (s0 s4 : σ) (rigName cwd branch : String)
    (hreach : ReachesBranch E s0 rigName cwd branch s4)
    (htrunk : branch = "main" ∨ branch = "master") :
    let r := runDone E doneIssue donePriority s0
    r.err = some (.errorString "cannot submit main/master branch to merge queue") ∧
    (∀ c ∈ r.calls, c.isParse = false ∧ c.isStore = false) ∧
    creates r.calls = [] ∧ r.state = s4 := by
  obtain ⟨townRoot, s1, s2, s3, h1, h2, h3, h4⟩ := hreach
  simp [runDone, h1, h2, h3, h4, htrunk, DoneCall.isParse, DoneCall.isStore, creates]

/-- The shape of every run that gets past the issue-id resolution: an optional
`Show`, then `FormatMRFields`, then one `Create` whose outcome decides the
result. -/
theorem runDone_submit_shape {σ : Type} (E : DoneEnv σ) (doneIssue : String)
    (donePriority : Int) (s0 s1 s2 s3 s4 s5 : σ)
    (townRoot rigName cwd branch autoTarget : String) (derr : Option GoError)
    (h1 : E.FindFromCwdOrError s0 = (.ok townRoot, s1))
    (h2 : E.findCurrentRig townRoot s1 = (.ok rigName, s2))
    (h3 : E.Getwd s2 = (.ok cwd, s3))
    (h4 : E.CurrentBranch cwd s3 = (.ok branch, s4))
    (hmain : branch ≠ "main") (hmaster : branch ≠ "master")
    (hid : resolvedIssue E doneIssue branch ≠ "")
    (hdet : E.detectIntegrationBranch cwd (resolvedIssue E doneIssue branch) s4
      = ((autoTarget, derr), s5)) :
    ∃ (priority : Int) (shown : List DoneCall) (s6 s7 : σ) (res : Except GoError Issue),
      ((0 ≤ donePriority ∧ priority = donePriority ∧ shown = [] ∧ s6 = s5) ∨
       (donePriority < 0 ∧
          ∃ e, E.Show cwd (resolvedIssue E doneIssue branch) s5 = (.error e, s6) ∧
          priority = 2 ∧ shown = [.Show cwd (resolvedIssue E doneIssue branch) (.error e)]) ∨
       (donePriority < 0 ∧
          ∃ i, E.Show cwd (resolvedIssue E doneIssue branch) s5 = (.ok i, s6) ∧
          priority = i.Priority ∧
          shown = [.Show cwd (resolvedIssue E doneIssue branch) (.ok i)])) ∧
      let fields : MRFields :=
        { Branch := branch,
          Target := if derr = none ∧ autoTarget ≠ "" then autoTarget else "main",
          SourceIssue := resolvedIssue E doneIssue branch,
          Worker := (E.parseBranchName branch).Worker,
          Rig := rigName }
      let opts : CreateOptions :=
        { Title := "Merge: " ++ resolvedIssue E doneIssue branch,
          Type_ := "merge-request",
          Priority := priority,
          Description := E.FormatMRFields fields }
      E.Create cwd opts s6 = (res, s7) ∧
      (runDone E doneIssue donePriority s0).calls =
        [.FindFromCwdOrError (.ok townRoot), .findCurrentRig townRoot (.ok rigName),
         .Getwd (.ok cwd), .CurrentBranch cwd (.ok branch),
         .parseBranchName branch (E.parseBranchName branch),
         .detectIntegrationBranch cwd (resolvedIssue E doneIssue branch) autoTarget derr]
        ++ shown ++ [.FormatMRFields fields (E.FormatMRFields fields), .Create cwd opts res] ∧
      (runDone E doneIssue donePriority s0).err =
        (match res with
         | .ok _ => none
         | .error e => some (Errorf_w "creating merge request: " e)) ∧
      (runDone E doneIssue donePriority s0).state = s7 := by
  by_cases hp : 0 ≤ donePriority
  · rcases hcr : E.Create cwd
        { Title := "Merge: " ++ resolvedIssue E doneIssue branch,
          Type_ := "merge-request", Priority := donePriority,
          Description := E.FormatMRFields
            { Branch := branch,
              Target := if derr = none ∧ autoTarget ≠ "" then autoTarget else "main",
              SourceIssue := resolvedIssue E doneIssue branch,
              Worker := (E.parseBranchName branch).Worker, Rig := rigName } } s5
      with ⟨res, s7⟩
    refine ⟨donePriority, [], s5, s7, res, Or.inl ⟨hp, rfl, rfl, rfl⟩, ?_⟩
    unfold resolvedIssue at hid hdet hcr ⊢
    cases res <;>
      simp [runDone, h1, h2, h3, h4, hmain, hmaster, hid, hdet, hp, hcr]
  · have hlt : donePriority < 0 := not_le.mp hp
    rcases hshow : E.Show cwd (resolvedIssue E doneIssue branch) s5 with ⟨_ | _, s6⟩
    · rename_i e
      rcases hcr : E.Create cwd
          { Title := "Merge: " ++ resolvedIssue E doneIssue branch,
            Type_ := "merge-request", Priority := 2,
            Description := E.FormatMRFields
              { Branch := branch,
                Target := if derr = none ∧ autoTarget ≠ "" then autoTarget else "main",
                SourceIssue := resolvedIssue E doneIssue branch,
                Worker := (E.parseBranchName branch).Worker, Rig := rigName } } s6
        with ⟨res, s7⟩
      refine ⟨2, _, s6, s7, res, Or.inr (Or.inl ⟨hlt, e, rfl, rfl, rfl⟩), ?_⟩
      unfold resolvedIssue at hid hdet hcr hshow ⊢
      cases res <;>
        simp [runDone, h1, h2, h3, h4, hmain, hmaster, hid, hdet, hp, hcr, hshow]
    · rename_i i
      rcases hcr : E.Create cwd
          { Title := "Merge: " ++ resolvedIssue E doneIssue branch,
            Type_ := "merge-request", Priority := i.Priority,
            Description := E.FormatMRFields
              { Branch := branch,
                Target := if derr = none ∧ autoTarget ≠ "" then autoTarget else "main",
                SourceIssue := resolvedIssue E doneIssue branch,
                Worker := (E.parseBranchName branch).Worker, Rig := rigName } } s6
        with ⟨res, s7⟩
      refine ⟨i.Priority, _, s6, s7, res, Or.inr (Or.inr ⟨hlt, i, rfl, rfl, rfl⟩), ?_⟩
      unfold resolvedIssue at hid hdet hcr hshow ⊢
      cases res <;>
        simp [runDone, h1, h2, h3, h4, hmain, hmaster, hid, hdet, hp, hcr, hshow]


/-- Every run either fails before `Create` without calling it, or calls it
exactly once and returns what its outcome decides. -/
theorem runDone_classify {σ : Type} (E : DoneEnv σ) (doneIssue : String)
    (donePriority : Int) (s0 : σ) :
    ((runDone E doneIssue donePriority s0).err ≠ none ∧
      creates (runDone E doneIssue donePriority s0).calls = []) ∨
    ∃ opts res, creates (runDone E doneIssue donePriority s0).calls = [(opts, res)] ∧
      (runDone E doneIssue donePriority s0).err =
        (match res with
         | .ok _ => none
         | .error e => some (Errorf_w "creating merge request: " e)) := by
  rcases h1 : E.FindFromCwdOrError s0 with ⟨_ | townRoot, s1⟩
  · left; simp [runDone, h1, creates]
  rcases h2 : E.findCurrentRig townRoot s1 with ⟨_ | rigName, s2⟩
  · left; simp [runDone, h1, h2, creates]
  rcases h3 : E.Getwd s2 with ⟨_ | cwd, s3⟩
  · left; simp [runDone, h1, h2, h3, creates]
  rcases h4 : E.CurrentBranch cwd s3 with ⟨_ | branch, s4⟩
  · left; simp [runDone, h1, h2, h3, h4, creates]
  by_cases htrunk : branch = "main" ∨ branch = "master"
  · left; simp [runDone, h1, h2, h3, h4, htrunk, creates]
  have hmain : branch ≠ "main" := fun h => htrunk (Or.inl h)
  have hmaster : branch ≠ "master" := fun h => htrunk (Or.inr h)
  by_cases hid : resolvedIssue E doneIssue branch = ""
  · left
    unfold resolvedIssue at hid
    simp [runDone, h1, h2, h3, h4, hmain, hmaster, hid, creates]
  right
  rcases hdet : E.detectIntegrationBranch cwd (resolvedIssue E doneIssue branch) s4
    with ⟨⟨autoTarget, derr⟩, s5⟩
  obtain ⟨priority, shown, s6, s7, res, hsh, -, hcalls, herr, -⟩ :=
    runDone_submit_shape E doneIssue donePriority s0 s1 s2 s3 s4 s5 townRoot rigName cwd branch
      autoTarget derr h1 h2 h3 h4 hmain hmaster hid hdet
  rcases hsh with ⟨-, -, rfl, -⟩ | ⟨-, e, -, -, rfl⟩ | ⟨-, i, -, -, rfl⟩ <;>
    exact ⟨_, res, by rw [hcalls]; rfl, herr⟩

/-- The run past the issue-id resolution, with the store call made explicit:
`Create` is applied to the options built from the resolved priority, in the
state left by the resolver (override given) or by `Show` (no override); its
outcome and the state it leaves are the run's. -/
theorem runDone_submit_run {σ : Type} (E : DoneEnv σ) (doneIssue : String)
    (donePriority : Int) (s0 s4 s5 : σ) (rigName cwd branch autoTarget : String)
    (derr : Option GoError)
    (hreach : ReachesBranch E s0 rigName cwd branch s4)
    (hmain : branch ≠ "main") (hmaster : branch ≠ "master")
    (hid : resolvedIssue E doneIssue branch ≠ "")
    (hdet : E.detectIntegrationBranch cwd (resolvedIssue E doneIssue branch) s4
      = ((autoTarget, derr), s5)) :
    ∃ (priority : Int) (res : Except GoError Issue) (s7 : σ),
      ((0 ≤ donePriority ∧ priority = donePriority ∧
          ∀ id sh, DoneCall.Show cwd id sh ∉ (runDone E doneIssue donePriority s0).calls) ∨
       (donePriority < 0 ∧ ∃ e s6,
          E.Show cwd (resolvedIssue E doneIssue branch) s5 = (.error e, s6) ∧ priority = 2) ∨
       (donePriority < 0 ∧ ∃ i s6,
          E.Show cwd (resolvedIssue E doneIssue branch) s5 = (.ok i, s6) ∧
          priority = i.Priority)) ∧
      let fields : MRFields :=
        { Branch := branch,
          Target := if derr = none ∧ autoTarget ≠ "" then autoTarget else "main",
          SourceIssue := resolvedIssue E doneIssue branch,
          Worker := (E.parseBranchName branch).Worker,
          Rig := rigName }
      let opts : CreateOptions :=
        { Title := "Merge: " ++ resolvedIssue E doneIssue branch,
          Type_ := "merge-request",
          Priority := priority,
          Description := E.FormatMRFields fields }
      E.Create cwd opts
          (if 0 ≤ donePriority then s5
           else (E.Show cwd (resolvedIssue E doneIssue branch) s5).2) = (res, s7) ∧
      formatted (runDone E doneIssue donePriority s0).calls = [fields] ∧
      creates (runDone E doneIssue donePriority s0).calls = [(opts, res)] ∧
      (runDone E doneIssue donePriority s0).state = s7 ∧
      ((runDone E doneIssue donePriority s0).err = none ↔ ∃ issue, res = .ok issue) := by
  obtain ⟨townRoot, s1, s2, s3, h1, h2, h3, h4⟩ := hreach
  obtain ⟨priority, shown, s6, s7, res, hsh, hcr, hcalls, herr, hst⟩ :=
    runDone_submit_shape E doneIssue donePriority s0 s1 s2 s3 s4 s5 townRoot rigName cwd branch
      autoTarget derr h1 h2 h3 h4 hmain hmaster hid hdet
  have hres :
      ((runDone E doneIssue donePriority s0).err = none ↔ ∃ issue, res = .ok issue) := by
    rw [herr]; cases res <;> simp
  rcases hsh with
    ⟨hp, hpr, rfl, rfl⟩ | ⟨hlt, e, hshow, hpr, rfl⟩ | ⟨hlt, i, hshow, hpr, rfl⟩
  · refine ⟨priority, res, s7, Or.inl ⟨hp, hpr, ?_⟩, ?_, ?_, ?_, hst, hres⟩
    · intro id sh hmem
      rw [hcalls] at hmem
      simp at hmem
    · rw [if_pos hp]; exact hcr
    · rw [hcalls]; rfl
    · rw [hcalls]; rfl
  · have hnp : ¬ 0 ≤ donePriority := not_le.mpr hlt
    refine ⟨priority, res, s7, Or.inr (Or.inl ⟨hlt, e, s6, hshow, hpr⟩),
      ?_, ?_, ?_, hst, hres⟩
    · rw [if_neg hnp, hshow]; exact hcr
    · rw [hcalls]; rfl
    · rw [hcalls]; rfl
  · have hnp : ¬ 0 ≤ donePriority := not_le.mpr hlt
    refine ⟨priority, res, s7, Or.inr (Or.inr ⟨hlt, i, s6, hshow, hpr⟩),
      ?_, ?_, ?_, hst, hres⟩
    · rw [if_neg hnp, hshow]; exact hcr
    · rw [hcalls]; rfl
    · rw [hcalls]; rfl

/-- C1: in a run that reaches `Create` (workspace, rig, working directory and
branch resolved, branch not a trunk name, issue id resolved) the store's
`Create` is applied exactly once, in the state left by the resolver (priority
override given) or by `Show` (no override), and its outcome and final state
are the run's; the options it is applied to have type `merge-request`, title
`Merge: ` plus the issue id, and as description `FormatMRFields` of the record
made of the branch, the resolved target, the issue id, the worker parsed from
the branch and the rig name.  The issue id is the flag when non-empty, else
the parsed one. -/
theorem runDone_create_options {σ : Type} (E : DoneEnv σ) (doneIssue : String)
    (donePriority : Int) (s0 s4 s5 : σ) (rigName cwd branch autoTarget : String)
    (derr : Option GoError)
    (hreach : ReachesBranch E s0 rigName cwd branch s4)
    (hmain : branch ≠ "main") (hmaster : branch ≠ "master")
    (hid : resolvedIssue E doneIssue branch ≠ "")
    (hdet : E.detectIntegrationBranch cwd (resolvedIssue E doneIssue branch) s4
      = ((autoTarget, derr), s5)) :
    let r := runDone E doneIssue donePriority s0
    let issueID := if doneIssue = "" then (E.parseBranchName branch).Issue else doneIssue
    let fields : MRFields :=
      { Branch := branch,
        Target := if derr = none ∧ autoTarget ≠ "" then autoTarget else "main",
        SourceIssue := issueID,
        Worker := (E.parseBranchName branch).Worker,
        Rig := rigName }
    formatted r.calls = [fields] ∧
    ∃ opts res s7, creates r.calls = [(opts, res)] ∧
      E.Create cwd opts
        (if 0 ≤ donePriority then s5 else (E.Show cwd issueID s5).2) = (res, s7) ∧
      r.state = s7 ∧
      (r.err = none ↔ ∃ issue, res = .ok issue) ∧
      opts.Type_ = "merge-request" ∧
      opts.Title = "Merge: " ++ issueID ∧
      opts.Description = E.FormatMRFields fields := by
  obtain ⟨priority, res, s7, -, hcr, hfmt, hcreates, hst, hres⟩ :=
    runDone_submit_run E doneIssue donePriority s0 s4 s5 rigName cwd branch autoTarget derr
      hreach hmain hmaster hid hdet
  intro r issueID fields
  exact ⟨hfmt, _, res, s7, hcreates, hcr, hst, hres, rfl, rfl, rfl⟩

/-- C3: on a non-trunk branch the run fails with the missing-source-issue error
exactly when the `--issue` flag is empty and the issue parsed from the branch
is empty; the message of that error contains the branch name, and in that case
the run makes no call on the issue store. -/
theorem runDone_missing_issue_iff {σ : Type} (E : DoneEnv σ) (doneIssue : String)
    (donePriority : Int) (s0 s4 : σ) (rigName cwd branch : String)
    (hreach : ReachesBranch E s0 rigName cwd branch s4)
    (hmain : branch ≠ "main") (hmaster : branch ≠ "master") :
    let r := runDone E doneIssue donePriority s0
    let missing : GoError := .errorString
      ("cannot determine source issue from branch '" ++ branch ++ "'; use --issue to specify")
    (r.err = some missing ↔ doneIssue = "" ∧ (E.parseBranchName branch).Issue = "") ∧
    (∃ pre post, missing.Error = pre ++ branch ++ post) ∧
    (doneIssue = "" ∧ (E.parseBranchName branch).Issue = "" →
      (∀ c ∈ r.calls, c.isStore = false) ∧ creates r.calls = [] ∧ r.state = s4) := by
  intro r missing
  refine ⟨?_, ⟨"cannot determine source issue from branch '", "'; use --issue to specify",
    by simp [missing, GoError.Error, String.append_assoc]⟩, ?_⟩
  · by_cases hid : resolvedIssue E doneIssue branch = ""
    · have hboth : doneIssue = "" ∧ (E.parseBranchName branch).Issue = "" := by
        unfold resolvedIssue at hid
        by_cases hd : doneIssue = ""
        · exact ⟨hd, by simpa [hd] using hid⟩
        · simp [hd] at hid
      obtain ⟨townRoot, s1, s2, s3, h1, h2, h3, h4⟩ := hreach
      simp [r, missing, runDone, h1, h2, h3, h4, hmain, hmaster, hboth.1, hboth.2]
    · have hnot : ¬ (doneIssue = "" ∧ (E.parseBranchName branch).Issue = "") := by
        rintro ⟨hd, hi⟩
        exact hid (by simp [resolvedIssue, hd, hi])
      obtain ⟨townRoot, s1, s2, s3, h1, h2, h3, h4⟩ := hreach
      rcases hdet : E.detectIntegrationBranch cwd (resolvedIssue E doneIssue branch) s4
        with ⟨⟨autoTarget, derr⟩, s5⟩
      obtain ⟨priority, shown, s6, s7, res, -, -, -, herr, -⟩ :=
        runDone_submit_shape E doneIssue donePriority s0 s1 s2 s3 s4 s5 townRoot rigName cwd
          branch autoTarget derr h1 h2 h3 h4 hmain hmaster hid hdet
      have hr : r.err = _ := herr
      constructor
      · intro h
        rw [hr] at h
        cases res <;> simp [missing, Errorf_w] at h
      · intro h
        exact absurd h hnot
  · rintro ⟨hd, hi⟩
    obtain ⟨townRoot, s1, s2, s3, h1, h2, h3, h4⟩ := hreach
    simp [r, runDone, h1, h2, h3, h4, hmain, hmaster, hd, hi, DoneCall.isStore, creates]

/-- C4: in a run that reaches `Create`, the store's `Create` is applied exactly
once and its outcome and final state are the run's, so the run succeeds exactly
when `Create` does.  An override `--priority` in 0..4 is the priority it is
given, `Show` is not called at all and `Create` runs in the state left by the
resolver, so the source issue does not matter.  With the flag at its default
-1 the priority is the source issue's when `Show` succeeds and 2 when `Show`
fails, and `Create` runs in the state `Show` left: a failing `Show` does not
stop the run. -/
theorem runDone_priority_resolution {σ : Type} (E : DoneEnv σ) (doneIssue : String)
    (donePriority : Int) (s0 s4 s5 : σ) (rigName cwd branch autoTarget : String)
    (derr : Option GoError)
    (hreach : ReachesBranch E s0 rigName cwd branch s4)
    (hmain : branch ≠ "main") (hmaster : branch ≠ "master")
    (hid : resolvedIssue E doneIssue branch ≠ "")
    (hdet : E.detectIntegrationBranch cwd (resolvedIssue E doneIssue branch) s4
      = ((autoTarget, derr), s5)) :
    let r := runDone E doneIssue donePriority s0
    ∃ opts res s6 s7, creates r.calls = [(opts, res)] ∧
      E.Create cwd opts s6 = (res, s7) ∧
      r.state = s7 ∧
      (r.err = none ↔ ∃ issue, res = .ok issue) ∧
      (0 ≤ donePriority ∧ donePriority ≤ 4 →
        opts.Priority = donePriority ∧ s6 = s5 ∧
        ∀ id sh, DoneCall.Show cwd id sh ∉ r.calls) ∧
      (donePriority = -1 → ∀ sourceIssue s,
        E.Show cwd (resolvedIssue E doneIssue branch) s5 = (.ok sourceIssue, s) →
        opts.Priority = sourceIssue.Priority ∧ s6 = s) ∧
      (donePriority = -1 → ∀ e s,
        E.Show cwd (resolvedIssue E doneIssue branch) s5 = (.error e, s) →
        opts.Priority = 2 ∧ s6 = s) := by
  obtain ⟨priority, res, s7, hpr, hcr, -, hcreates, hst, hres⟩ :=
    runDone_submit_run E doneIssue donePriority s0 s4 s5 rigName cwd branch autoTarget derr
      hreach hmain hmaster hid hdet
  intro r
  refine ⟨_, res, _, s7, hcreates, hcr, hst, hres, ?_, ?_, ?_⟩
  · rintro ⟨hp, -⟩
    rcases hpr with ⟨-, hpe, hno⟩ | ⟨hlt, -⟩ | ⟨hlt, -⟩
    · exact ⟨hpe, if_pos hp, hno⟩
    · omega
    · omega
  · intro hd sourceIssue s hs
    have hnp : ¬ 0 ≤ donePriority := by omega
    rcases hpr with ⟨hp, -⟩ | ⟨-, e, s6, hshow, -⟩ | ⟨-, i, s6, hshow, hpe⟩
    · exact absurd hp hnp
    · rw [hshow] at hs
      simp at hs
    · rw [hshow] at hs
      simp only [Prod.mk.injEq, Except.ok.injEq] at hs
      refine ⟨?_, ?_⟩
      · show priority = sourceIssue.Priority
        rw [hpe, hs.1]
      · rw [if_neg hnp, hshow]
        exact hs.2
  · intro hd e s hs
    have hnp : ¬ 0 ≤ donePriority := by omega
    rcases hpr with ⟨hp, -⟩ | ⟨-, e2, s6, hshow, hpe⟩ | ⟨-, i, s6, hshow, -⟩
    · exact absurd hp hnp
    · rw [hshow] at hs
      simp only [Prod.mk.injEq, Except.error.injEq] at hs
      refine ⟨hpe, ?_⟩
      rw [if_neg hnp, hshow]
      exact hs.2
    · rw [hshow] at hs
      simp at hs

/-- C5: in a run that gets past the issue-id resolution, the target recorded in
the merge-request fields is `main` when `detectIntegrationBranch` returns an
error or the empty string and the branch it returned otherwise; whatever the
resolver returned, the store's `Create` is applied exactly once, to options
whose description is formatted from those fields, and its outcome and final
state are the run's, so the run fails only if `Create` does. -/
theorem runDone_target_fallback {σ : Type} (E : DoneEnv σ) (doneIssue : String)
    (donePriority : Int) (s0 s4 s5 : σ) (rigName cwd branch autoTarget : String)
    (derr : Option GoError)
    (hreach : ReachesBranch E s0 rigName cwd branch s4)
    (hmain : branch ≠ "main") (hmaster : branch ≠ "master")
    (hid : resolvedIssue E doneIssue branch ≠ "")
    (hdet : E.detectIntegrationBranch cwd (resolvedIssue E doneIssue branch) s4
      = ((autoTarget, derr), s5)) :
    let r := runDone E doneIssue donePriority s0
    ∃ fields opts res s7, formatted r.calls = [fields] ∧ creates r.calls = [(opts, res)] ∧
      E.Create cwd opts
        (if 0 ≤ donePriority then s5
         else (E.Show cwd (resolvedIssue E doneIssue branch) s5).2) = (res, s7) ∧
      r.state = s7 ∧
      opts.Description = E.FormatMRFields fields ∧
      (derr ≠ none ∨ autoTarget = "" → fields.Target = "main") ∧
      (derr = none ∧ autoTarget ≠ "" → fields.Target = autoTarget) ∧
      (r.err = none ↔ ∃ issue, res = .ok issue) := by
  obtain ⟨priority, res, s7, -, hcr, hfmt, hcreates, hst, hres⟩ :=
    runDone_submit_run E doneIssue donePriority s0 s4 s5 rigName cwd branch autoTarget derr
      hreach hmain hmaster hid hdet
  intro r
  refine ⟨_, _, res, s7, hfmt, hcreates, hcr, hst, rfl, ?_, ?_, hres⟩
  · rintro (h | h)
    · simp [h]
    · simp [h]
  · rintro ⟨h1, h2⟩
    simp [h1, h2]

/-- C6: every run calls `Create` at most once; it returns success exactly when
`Create` was called once and succeeded; a failing `Create` makes the run fail
with an error that wraps the error of `Create`; and on each other failure path
(workspace not found, rig not found, working directory or branch lookup
failing, trunk branch, missing issue id) the run fails without calling `Create`. -/
theorem runDone_create_at_most_once {σ : Type} (E : DoneEnv σ) (doneIssue : String)
    (donePriority : Int) (s0 : σ) :
    let r := runDone E doneIssue donePriority s0
    (creates r.calls).length ≤ 1 ∧
    (r.err = none ↔ ∃ opts issue, creates r.calls = [(opts, .ok issue)]) ∧
    (∀ opts cause, (opts, Except.error cause) ∈ creates r.calls →
      ∃ e, r.err = some e ∧ e.Unwrap = some cause ∧
        e = Errorf_w "creating merge request: " cause) ∧
    (r.err ≠ none → (∀ opts cause, (opts, Except.error cause) ∉ creates r.calls) →
      creates r.calls = []) ∧
    (∀ e s1, E.FindFromCwdOrError s0 = (.error e, s1) →
      r.err ≠ none ∧ creates r.calls = []) ∧
    (∀ townRoot s1 e s2, E.FindFromCwdOrError s0 = (.ok townRoot, s1) →
      E.findCurrentRig townRoot s1 = (.error e, s2) →
      r.err ≠ none ∧ creates r.calls = []) ∧
    (∀ townRoot s1 rigName s2 e s3, E.FindFromCwdOrError s0 = (.ok townRoot, s1) →
      E.findCurrentRig townRoot s1 = (.ok rigName, s2) →
      E.Getwd s2 = (.error e, s3) →
      r.err ≠ none ∧ creates r.calls = []) ∧
    (∀ townRoot s1 rigName s2 cwd s3 e s4, E.FindFromCwdOrError s0 = (.ok townRoot, s1) →
      E.findCurrentRig townRoot s1 = (.ok rigName, s2) →
      E.Getwd s2 = (.ok cwd, s3) →
      E.CurrentBranch cwd s3 = (.error e, s4) →
      r.err ≠ none ∧ creates r.calls = []) ∧
    (∀ rigName cwd branch s4, ReachesBranch E s0 rigName cwd branch s4 →
      branch = "main" ∨ branch = "master" →
      r.err ≠ none ∧ creates r.calls = []) ∧
    (∀ rigName cwd branch s4, ReachesBranch E s0 rigName cwd branch s4 →
      branch ≠ "main" → branch ≠ "master" → resolvedIssue E doneIssue branch = "" →
      r.err ≠ none ∧ creates r.calls = []) := by
  intro r
  have hcl := runDone_classify E doneIssue donePriority s0
  refine ⟨?_, ?_, ?_, ?_, ?_, ?_, ?_, ?_, ?_, ?_⟩
  · rcases hcl with ⟨-, h⟩ | ⟨opts, res, h, -⟩ <;> simp [r, h]
  · rcases hcl with ⟨hne, h⟩ | ⟨opts, res, h, he⟩
    · constructor
      · intro h0; exact absurd h0 hne
      · rintro ⟨opts, issue, h2⟩
        have h3 : creates r.calls = [] := h
        rw [h3] at h2
        simp at h2
    · have h3 : creates r.calls = _ := h
      have he3 : r.err = _ := he
      rw [h3, he3]
      cases res <;> simp
  · intro opts cause hmem
    rcases hcl with ⟨-, h⟩ | ⟨opts2, res, h, he⟩
    · have h3 : creates r.calls = [] := h
      rw [h3] at hmem
      simp at hmem
    · have h3 : creates r.calls = _ := h
      have he3 : r.err = _ := he
      rw [h3] at hmem
      simp only [List.mem_singleton, Prod.mk.injEq] at hmem
      obtain ⟨-, rfl⟩ := hmem
      exact ⟨_, he3, rfl, rfl⟩
  · intro hne hno
    rcases hcl with ⟨-, h⟩ | ⟨opts, res, h, he⟩
    · exact h
    · have h3 : creates r.calls = _ := h
      have he3 : r.err = _ := he
      cases res with
      | error c => exact absurd (by rw [h3]; simp) (hno opts c)
      | ok i => exact absurd (by rw [he3]) hne
  · intro e s1 h1
    simp [r, runDone, h1, creates]
  · intro townRoot s1 e s2 h1 h2
    simp [r, runDone, h1, h2, creates]
  · intro townRoot s1 rigName s2 e s3 h1 h2 h3
    simp [r, runDone, h1, h2, h3, creates]
  · intro townRoot s1 rigName s2 cwd s3 e s4 h1 h2 h3 h4
    simp [r, runDone, h1, h2, h3, h4, creates]
  · rintro rigName cwd branch s4 ⟨townRoot, s1, s2, s3, h1, h2, h3, h4⟩ htrunk
    simp [r, runDone, h1, h2, h3, h4, htrunk, creates]
  · rintro rigName cwd branch s4 ⟨townRoot, s1, s2, s3, h1, h2, h3, h4⟩ hmain hmaster hid
    unfold resolvedIssue at hid
    simp [r, runDone, h1, h2, h3, h4, hmain, hmaster, hid, creates]

/-- Witness of C2: on branch `main`, with `--issue gt-42 --priority 0`, the run
is rejected and nothing is created. -/
theorem runDone_trunk_rejected_witness :
    ReachesBranch (sampleDone "main" ("", none) (.ok sampleIssue) none) [] "gastown"
      "/town/gastown/polecats/alice" "main" [] ∧
    (runDone (sampleDone "main" ("", none) (.ok sampleIssue) none) "gt-42" 0 []).err
      = some (.errorString "cannot submit main/master branch to merge queue") ∧
    creates (runDone (sampleDone "main" ("", none) (.ok sampleIssue) none) "gt-42" 0 []).calls
      = [] :=
  have hreach : ReachesBranch (sampleDone "main" ("", none) (.ok sampleIssue) none) []
      "gastown" "/town/gastown/polecats/alice" "main" [] :=
    ⟨"/town", [], [], [], rfl, rfl, rfl, rfl⟩
  have h := runDone_trunk_rejected (sampleDone "main" ("", none) (.ok sampleIssue) none)
    "gt-42" 0 [] [] "gastown" "/town/gastown/polecats/alice" "main" hreach (Or.inl rfl)
  ⟨hreach, h.1, h.2.2.1⟩

/-- Witness of C1: branch `feature-x` parses to empty fields; with
`--issue gt-42 --priority 0` the run succeeds, the store holds the one new
issue, and `Create` was given the title `Merge: gt-42`, the source issue
`gt-42` and an empty worker. -/
theorem runDone_create_options_witness :
    (runDone (sampleDone "feature-x" ("", none) (.ok sampleIssue) none) "gt-42" 0 []).err
      = none ∧
    (runDone (sampleDone "feature-x" ("", none) (.ok sampleIssue) none) "gt-42" 0 []).state
      = [⟨"Merge: gt-42", "merge-request", 0,
          sampleFormat ⟨"feature-x", "main", "gt-42", "", "gastown"⟩⟩] ∧
    formatted (runDone (sampleDone "feature-x" ("", none) (.ok sampleIssue) none)
      "gt-42" 0 []).calls = [⟨"feature-x", "main", "gt-42", "", "gastown"⟩] ∧
    ∃ opts res s7, creates (runDone (sampleDone "feature-x" ("", none) (.ok sampleIssue) none)
        "gt-42" 0 []).calls = [(opts, res)] ∧
      (sampleDone "feature-x" ("", none) (.ok sampleIssue) none).Create
        "/town/gastown/polecats/alice" opts [] = (res, s7) ∧
      (runDone (sampleDone "feature-x" ("", none) (.ok sampleIssue) none) "gt-42" 0 []).state
        = s7 ∧
      ((runDone (sampleDone "feature-x" ("", none) (.ok sampleIssue) none) "gt-42" 0 []).err
        = none ↔ ∃ issue, res = .ok issue) ∧
      opts.Type_ = "merge-request" ∧
      opts.Title = "Merge: gt-42" ∧
      opts.Description = sampleFormat ⟨"feature-x", "main", "gt-42", "", "gastown"⟩ :=
  ⟨rfl, rfl,
    runDone_create_options (sampleDone "feature-x" ("", none) (.ok sampleIssue) none)
      "gt-42" 0 [] [] [] "gastown" "/town/gastown/polecats/alice" "feature-x" "" none
      ⟨"/town", [], [], [], rfl, rfl, rfl, rfl⟩ (by decide) (by decide) (by decide) rfl⟩

/-- C10 at the input `--priority 7` on branch `gt-abc-alice`: the source issue
has priority 1, within 0..4, the run succeeds, and the priority passed to
`Create` and stored is 7, outside 0..4. -/
theorem runDone_priority_seven :
    (0 ≤ sampleIssue.Priority ∧ sampleIssue.Priority ≤ 4) ∧
    (runDone (sampleDone "gt-abc-alice" ("", none) (.ok sampleIssue) none) "" 7 []).err
      = none ∧
    (creates (runDone (sampleDone "gt-abc-alice" ("", none) (.ok sampleIssue) none)
      "" 7 []).calls).map (fun c => c.1.Priority) = [7] ∧
    (runDone (sampleDone "gt-abc-alice" ("", none) (.ok sampleIssue) none) "" 7 []).state.map
      (fun o => o.Priority) = [7] ∧
    ¬ ((7 : Int) ≤ 4) := by
  refine ⟨by decide, ?_, ?_, ?_, by decide⟩ <;> rfl

/-- Witness of C3: branch `feature-x` parses to no issue and no `--issue` is
given, so the run fails naming the branch and creates nothing. -/
theorem runDone_missing_issue_iff_witness :
    (runDone (sampleDone "feature-x" ("", none) (.ok sampleIssue) none) "" (-1) []).err
      = some (.errorString
          "cannot determine source issue from branch 'feature-x'; use --issue to specify") ∧
    creates (runDone (sampleDone "feature-x" ("", none) (.ok sampleIssue) none)
      "" (-1) []).calls = [] :=
  have h := runDone_missing_issue_iff (sampleDone "feature-x" ("", none) (.ok sampleIssue) none)
    "" (-1) [] [] "gastown" "/town/gastown/polecats/alice" "feature-x"
    ⟨"/town", [], [], [], rfl, rfl, rfl, rfl⟩ (by decide) (by decide)
  ⟨h.1.mpr ⟨rfl, rfl⟩, (h.2.2 ⟨rfl, rfl⟩).2.1⟩

/-- Witness of C4: branch `gt-abc-alice`, no flags, `Show` failing: the run
still succeeds, `Create` is applied in the state `Show` left, with priority 2,
and the store holds the new issue of priority 2. -/
theorem runDone_priority_resolution_witness :
    (runDone (sampleDone "gt-abc-alice" ("", none)
      (.error (.errorString "issue not found")) none) "" (-1) []).err = none ∧
    (runDone (sampleDone "gt-abc-alice" ("", none)
      (.error (.errorString "issue not found")) none) "" (-1) []).state
      = [⟨"Merge: gt-abc", "merge-request", 2,
          sampleFormat ⟨"gt-abc-alice", "main", "gt-abc", "alice", "gastown"⟩⟩] ∧
    ∃ opts res s6 s7,
      creates (runDone (sampleDone "gt-abc-alice" ("", none)
        (.error (.errorString "issue not found")) none) "" (-1) []).calls = [(opts, res)] ∧
      (sampleDone "gt-abc-alice" ("", none) (.error (.errorString "issue not found")) none).Create
        "/town/gastown/polecats/alice" opts s6 = (res, s7) ∧
      (runDone (sampleDone "gt-abc-alice" ("", none)
        (.error (.errorString "issue not found")) none) "" (-1) []).state = s7 ∧
      opts.Priority = 2 ∧ s6 = [] :=
  have h := runDone_priority_resolution
    (sampleDone "gt-abc-alice" ("", none) (.error (.errorString "issue not found")) none)
    "" (-1) [] [] [] "gastown" "/town/gastown/polecats/alice" "gt-abc-alice" "" none
    ⟨"/town", [], [], [], rfl, rfl, rfl, rfl⟩ (by decide) (by decide) (by decide) rfl
  match h with
  | ⟨opts, res, s6, s7, hc, hcr, hst, _, _, _, h2⟩ =>
    ⟨rfl, rfl, opts, res, s6, s7, hc, hcr, hst,
      h2 rfl (.errorString "issue not found") [] rfl⟩

/-- Witness of C5: the resolver returns a branch name together with an error;
the recorded target is `main`, `Create` is still applied and the run succeeds,
leaving the new issue in the store. -/
theorem runDone_target_fallback_witness :
    (runDone (sampleDone "gt-abc-alice"
      ("integration/gt-epic", some (.errorString "bd: database locked"))
      (.ok sampleIssue) none) "" (-1) []).err = none ∧
    (runDone (sampleDone "gt-abc-alice"
      ("integration/gt-epic", some (.errorString "bd: database locked"))
      (.ok sampleIssue) none) "" (-1) []).state
      = [⟨"Merge: gt-abc", "merge-request", 1,
          sampleFormat ⟨"gt-abc-alice", "main", "gt-abc", "alice", "gastown"⟩⟩] ∧
    ∃ fields opts res s7,
      formatted (runDone (sampleDone "gt-abc-alice"
        ("integration/gt-epic", some (.errorString "bd: database locked"))
        (.ok sampleIssue) none) "" (-1) []).calls = [fields] ∧
      creates (runDone (sampleDone "gt-abc-alice"
        ("integration/gt-epic", some (.errorString "bd: database locked"))
        (.ok sampleIssue) none) "" (-1) []).calls = [(opts, res)] ∧
      (sampleDone "gt-abc-alice"
        ("integration/gt-epic", some (.errorString "bd: database locked"))
        (.ok sampleIssue) none).Create "/town/gastown/polecats/alice" opts [] = (res, s7) ∧
      (runDone (sampleDone "gt-abc-alice"
        ("integration/gt-epic", some (.errorString "bd: database locked"))
        (.ok sampleIssue) none) "" (-1) []).state = s7 ∧
      fields.Target = "main" :=
  have h := runDone_target_fallback
    (sampleDone "gt-abc-alice" ("integration/gt-epic", some (.errorString "bd: database locked"))
      (.ok sampleIssue) none)
    "" (-1) [] [] [] "gastown" "/town/gastown/polecats/alice" "gt-abc-alice"
    "integration/gt-epic" (some (.errorString "bd: database locked"))
    ⟨"/town", [], [], [], rfl, rfl, rfl, rfl⟩ (by decide) (by decide) (by decide) rfl
  match h with
  | ⟨fields, opts, res, s7, hf, hc, hcr, hst, _, hmain, _, _⟩ =>
    ⟨rfl, rfl, fields, opts, res, s7, hf, hc, hcr, hst, hmain (Or.inl (by simp))⟩

/-- Witness of C6: when `Create` fails, the run fails with an error wrapping the
error of `Create`. -/
theorem runDone_create_at_most_once_witness :
    ∃ e, (runDone (sampleDone "gt-abc-alice" ("", none) (.ok sampleIssue)
        (some (.errorString "bd: database locked"))) "" (-1) []).err = some e ∧
      e.Unwrap = some (.errorString "bd: database locked") ∧
      e = Errorf_w "creating merge request: " (.errorString "bd: database locked") :=
  (runDone_create_at_most_once (sampleDone "gt-abc-alice" ("", none) (.ok sampleIssue)
      (some (.errorString "bd: database locked"))) "" (-1) []).2.2.1
    ⟨"Merge: gt-abc", "merge-request", 1,
      sampleFormat ⟨"gt-abc-alice", "main", "gt-abc", "alice", "gastown"⟩⟩
    (.errorString "bd: database locked") (by
      have : creates (runDone (sampleDone "gt-abc-alice" ("", none) (.ok sampleIssue)
          (some (.errorString "bd: database locked"))) "" (-1) []).calls
          = [(⟨"Merge: gt-abc", "merge-request", 1,
              sampleFormat ⟨"gt-abc-alice", "main", "gt-abc", "alice", "gastown"⟩⟩,
              .error (.errorString "bd: database locked"))] := rfl
      rw [this]
      exact List.mem_singleton.mpr rfl)

/-! ## Theorems: `gt start` -/

/-- What the Boolean check `deaconAfterMayor` means: every Deacon call in the
list has before it a call that established the Mayor as up. -/
theorem deaconAfterMayor_sound {σ : Type} (E : StartEnv σ) (l : List StartCall) :
    ∀ up, deaconAfterMayor E up l = true →
      ∀ pre c post, l = pre ++ c :: post → c.isDeacon E = true →
        up = true ∨ ∃ m ∈ pre, m.mayorUp E = true := by
  induction l with
  | nil =>
    intro up _ pre c post h
    simp at h
  | cons a l ih =>
    intro up h pre c post hsplit hc
    simp only [deaconAfterMayor, Bool.and_eq_true, Bool.or_eq_true, Bool.not_eq_true'] at h
    cases pre with
    | nil =>
      simp only [List.nil_append, List.cons.injEq] at hsplit
      obtain ⟨rfl, -⟩ := hsplit
      rcases h.1 with h1 | h1
      · rw [hc] at h1; cases h1
      · exact Or.inl h1
    | cons p pre =>
      simp only [List.cons_append, List.cons.injEq] at hsplit
      obtain ⟨rfl, hl⟩ := hsplit
      rcases ih _ h.2 pre c post hl hc with h2 | ⟨m, hm, hup⟩
      · simp only [Bool.or_eq_true] at h2
        rcases h2 with h2 | h2
        · exact Or.inl h2
        · exact Or.inr ⟨a, List.mem_cons_self _ _, h2⟩
      · exact Or.inr ⟨m, List.mem_cons_of_mem _ hm, hup⟩

/-- C8: in every run of `runStart` (the two session names being distinct),
each Deacon call comes after a call that established the Mayor as up
(`HasSession` reporting it running, or `startMayorSession` succeeding); a
failing `startMayorSession` is the last call of the run, which then returns an
error naming Mayor and wrapping the cause, with no Deacon call made; a failing
`startDeaconSession` is the last call of the run, which returns an error naming
Deacon and wrapping the cause. -/
theorem runStart_ordering_and_abort {σ : Type} (E : StartEnv σ) (s0 : σ)
    (hne : E.MayorSessionName ≠ E.DeaconSessionName) :
    let r := runStart E s0
    (∀ pre c post, r.calls = pre ++ c :: post → c.isDeacon E = true →
      ∃ m ∈ pre, m.mayorUp E = true) ∧
    (∀ cause, StartCall.startMayorSession (some cause) ∈ r.calls →
      r.err = some (.wrapError ("starting Mayor: " ++ cause.Error) cause) ∧
      (∀ c ∈ r.calls, c.isDeacon E = false) ∧
      r.calls.getLast? = some (.startMayorSession (some cause))) ∧
    (∀ cause, StartCall.startDeaconSession (some cause) ∈ r.calls →
      r.err = some (.wrapError ("starting Deacon: " ++ cause.Error) cause) ∧
      r.calls.getLast? = some (.startDeaconSession (some cause))) := by
  intro r
  have hne2 : E.DeaconSessionName ≠ E.MayorSessionName := fun h => hne h.symm
  have hord : deaconAfterMayor E false r.calls = true := by
    rcases h1 : E.FindFromCwdOrError s0 with ⟨_ | townRoot, s1⟩
    · simp [r, runStart, h1, deaconAfterMayor, StartCall.isDeacon]
    rcases h2 : E.HasSession E.MayorSessionName s1 with ⟨⟨_ | _, eM⟩, s2⟩
    · rcases h3 : E.startMayorSession s2 with ⟨_ | em, s3⟩
      · rcases h4 : E.HasSession E.DeaconSessionName s3 with ⟨⟨_ | _, eD⟩, s4⟩
        · rcases h5 : E.startDeaconSession s4 with ⟨_ | ed, s5⟩ <;>
            simp [r, runStart, h1, h2, h3, h4, h5, deaconAfterMayor, StartCall.isDeacon,
              StartCall.mayorUp, hne]
        · simp [r, runStart, h1, h2, h3, h4, deaconAfterMayor, StartCall.isDeacon,
            StartCall.mayorUp, hne]
      · simp [r, runStart, h1, h2, h3, deaconAfterMayor, StartCall.isDeacon,
          StartCall.mayorUp, hne]
    · rcases h4 : E.HasSession E.DeaconSessionName s2 with ⟨⟨_ | _, eD⟩, s4⟩
      · rcases h5 : E.startDeaconSession s4 with ⟨_ | ed, s5⟩ <;>
          simp [r, runStart, h1, h2, h4, h5, deaconAfterMayor, StartCall.isDeacon,
            StartCall.mayorUp, hne]
      · simp [r, runStart, h1, h2, h4, deaconAfterMayor, StartCall.isDeacon,
          StartCall.mayorUp, hne]
  refine ⟨?_, ?_, ?_⟩
  · intro pre c post hsplit hc
    rcases deaconAfterMayor_sound E r.calls false hord pre c post hsplit hc with h | h
    · cases h
    · exact h
  · intro cause
    rcases h1 : E.FindFromCwdOrError s0 with ⟨_ | townRoot, s1⟩
    · simp [r, runStart, h1]
    rcases h2 : E.HasSession E.MayorSessionName s1 with ⟨⟨_ | _, eM⟩, s2⟩
    · rcases h3 : E.startMayorSession s2 with ⟨_ | em, s3⟩
      · rcases h4 : E.HasSession E.DeaconSessionName s3 with ⟨⟨_ | _, eD⟩, s4⟩
        · rcases h5 : E.startDeaconSession s4 with ⟨_ | ed, s5⟩ <;>
            simp [r, runStart, h1, h2, h3, h4, h5]
        · simp [r, runStart, h1, h2, h3, h4]
      · simp [r, runStart, h1, h2, h3, Errorf_w, StartCall.isDeacon, hne]
        rintro rfl
        exact ⟨rfl, rfl⟩
    · rcases h4 : E.HasSession E.DeaconSessionName s2 with ⟨⟨_ | _, eD⟩, s4⟩
      · rcases h5 : E.startDeaconSession s4 with ⟨_ | ed, s5⟩ <;>
          simp [r, runStart, h1, h2, h4, h5]
      · simp [r, runStart, h1, h2, h4]
  · intro cause
    rcases h1 : E.FindFromCwdOrError s0 with ⟨_ | townRoot, s1⟩
    · simp [r, runStart, h1]
    rcases h2 : E.HasSession E.MayorSessionName s1 with ⟨⟨_ | _, eM⟩, s2⟩
    · rcases h3 : E.startMayorSession s2 with ⟨_ | em, s3⟩
      · rcases h4 : E.HasSession E.DeaconSessionName s3 with ⟨⟨_ | _, eD⟩, s4⟩
        · rcases h5 : E.startDeaconSession s4 with ⟨_ | ed, s5⟩
          · simp [r, runStart, h1, h2, h3, h4, h5]
          · simp [r, runStart, h1, h2, h3, h4, h5, Errorf_w]
            rintro rfl
            exact ⟨rfl, rfl⟩
        · simp [r, runStart, h1, h2, h3, h4]
      · simp [r, runStart, h1, h2, h3]
    · rcases h4 : E.HasSession E.DeaconSessionName s2 with ⟨⟨_ | _, eD⟩, s4⟩
      · rcases h5 : E.startDeaconSession s4 with ⟨_ | ed, s5⟩
        · simp [r, runStart, h1, h2, h4, h5]
        · simp [r, runStart, h1, h2, h4, h5, Errorf_w]
          rintro rfl
          exact ⟨rfl, rfl⟩
      · simp [r, runStart, h1, h2, h4]

/-- Witness of C8: on the sample host with a pending failure for the Mayor, the
run ends with the failed `startMayorSession`, returns an error naming Mayor and
makes no Deacon call. -/
theorem runStart_ordering_and_abort_witness :
    (runStart (sampleStart none) ⟨[], ["gt-mayor"]⟩).err
      = some (.wrapError "starting Mayor: tmux: cannot create session gt-mayor"
          (.errorString "tmux: cannot create session gt-mayor")) ∧
    (∀ c ∈ (runStart (sampleStart none) ⟨[], ["gt-mayor"]⟩).calls,
      c.isDeacon (sampleStart none) = false) :=
  have h := (runStart_ordering_and_abort (sampleStart none) ⟨[], ["gt-mayor"]⟩
    (by decide)).2.1 (.errorString "tmux: cannot create session gt-mayor") (by
      have hc : (runStart (sampleStart none) ⟨[], ["gt-mayor"]⟩).calls
          = [.FindFromCwdOrError (.ok "/town"), .HasSession "gt-mayor" false none,
             .startMayorSession (some (.errorString "tmux: cannot create session gt-mayor"))] :=
        rfl
      rw [hc]
      simp)
  ⟨h.1, h.2.1⟩

/-- After a successful run over a persistent host both sessions are reported
as running. -/
theorem runStart_up_after {σ : Type} (E : StartEnv σ) (hP : SessionsPersist E) (s0 : σ)
    (herr : (runStart E s0).err = none) :
    Up E E.MayorSessionName (runStart E s0).state ∧
    Up E E.DeaconSessionName (runStart E s0).state := by
  have deaconPhase : ∀ s3 s4 bD eD, Up E E.MayorSessionName s3 →
      E.HasSession E.DeaconSessionName s3 = ((bD, eD), s4) →
      Up E E.MayorSessionName s4 ∧ (bD = true → Up E E.DeaconSessionName s4) ∧
      (∀ s5, E.startDeaconSession s4 = (none, s5) →
        Up E E.MayorSessionName s5 ∧ Up E E.DeaconSessionName s5) := by
    intro s3 s4 bD eD hM h4
    have hM4 : Up E E.MayorSessionName s4 := by
      have := hP.keepQuery E.MayorSessionName E.DeaconSessionName s3 hM
      rwa [h4] at this
    refine ⟨hM4, ?_, ?_⟩
    · intro hb
      have hD : Up E E.DeaconSessionName s3 := by simp [Up, h4, hb]
      have := hP.keepQuery E.DeaconSessionName E.DeaconSessionName s3 hD
      rwa [h4] at this
    · intro s5 h5
      constructor
      · have := hP.keepDeacon E.MayorSessionName s4 hM4
        rwa [h5] at this
      · have := hP.deaconStarted s4 (by rw [h5])
        rwa [h5] at this
  rcases h1 : E.FindFromCwdOrError s0 with ⟨_ | townRoot, s1⟩
  · simp [runStart, h1] at herr
  rcases h2 : E.HasSession E.MayorSessionName s1 with ⟨⟨_ | _, eM⟩, s2⟩
  · rcases h3 : E.startMayorSession s2 with ⟨_ | em, s3⟩
    · have hM3 : Up E E.MayorSessionName s3 := by
        have := hP.mayorStarted s2 (by rw [h3])
        rwa [h3] at this
      rcases h4 : E.HasSession E.DeaconSessionName s3 with ⟨⟨_ | _, eD⟩, s4⟩
      · rcases h5 : E.startDeaconSession s4 with ⟨_ | ed, s5⟩
        · have hst : (runStart E s0).state = s5 := by simp [runStart, h1, h2, h3, h4, h5]
          rw [hst]
          exact (deaconPhase s3 s4 false eD hM3 h4).2.2 s5 h5
        · simp [runStart, h1, h2, h3, h4, h5] at herr
      · have hst : (runStart E s0).state = s4 := by simp [runStart, h1, h2, h3, h4]
        rw [hst]
        have := deaconPhase s3 s4 true eD hM3 h4
        exact ⟨this.1, this.2.1 rfl⟩
    · simp [runStart, h1, h2, h3] at herr
  · have hM2 : Up E E.MayorSessionName s2 := by
      have hM1 : Up E E.MayorSessionName s1 := by simp [Up, h2]
      have := hP.keepQuery E.MayorSessionName E.MayorSessionName s1 hM1
      rwa [h2] at this
    rcases h4 : E.HasSession E.DeaconSessionName s2 with ⟨⟨_ | _, eD⟩, s4⟩
    · rcases h5 : E.startDeaconSession s4 with ⟨_ | ed, s5⟩
      · have hst : (runStart E s0).state = s5 := by simp [runStart, h1, h2, h4, h5]
        rw [hst]
        exact (deaconPhase s2 s4 false eD hM2 h4).2.2 s5 h5
      · simp [runStart, h1, h2, h4, h5] at herr
    · have hst : (runStart E s0).state = s4 := by simp [runStart, h1, h2, h4]
      rw [hst]
      have := deaconPhase s2 s4 true eD hM2 h4
      exact ⟨this.1, this.2.1 rfl⟩

/-- A run that starts with both sessions reported as running, over a
persistent host, makes no session-start invocation. -/
theorem runStart_no_start_of_up {σ : Type} (E : StartEnv σ) (hP : SessionsPersist E) (s : σ)
    (hM : Up E E.MayorSessionName s) (hD : Up E E.DeaconSessionName s) :
    ∀ c ∈ (runStart E s).calls, c.isStart = false := by
  rcases h1 : E.FindFromCwdOrError s with ⟨_ | townRoot, s1⟩
  · simp [runStart, h1, StartCall.isStart]
  have hM1 : Up E E.MayorSessionName s1 := by
    have := hP.keepFind E.MayorSessionName s hM
    rwa [h1] at this
  have hD1 : Up E E.DeaconSessionName s1 := by
    have := hP.keepFind E.DeaconSessionName s hD
    rwa [h1] at this
  rcases h2 : E.HasSession E.MayorSessionName s1 with ⟨⟨bM, eM⟩, s2⟩
  have hbM : bM = true := by simpa [Up, h2] using hM1
  subst hbM
  have hD2 : Up E E.DeaconSessionName s2 := by
    have := hP.keepQuery E.DeaconSessionName E.MayorSessionName s1 hD1
    rwa [h2] at this
  rcases h4 : E.HasSession E.DeaconSessionName s2 with ⟨⟨bD, eD⟩, s4⟩
  have hbD : bD = true := by simpa [Up, h4] using hD2
  subst hbD
  simp [runStart, h1, h2, h4, StartCall.isStart]

/-- The sample session host is persistent, whatever error its queries return. -/
theorem sampleStart_persist (queryErr : Option GoError) :
    SessionsPersist (sampleStart queryErr) := by
  have grow : ∀ (name other : String) (h : Host), name ∈ h.running →
      name ∈ (sampleStartSession other h).2.running := by
    intro name other h hmem
    unfold sampleStartSession
    split
    · exact hmem
    · exact List.mem_cons_of_mem _ hmem
  have started : ∀ (name : String) (h : Host), (sampleStartSession name h).1 = none →
      name ∈ (sampleStartSession name h).2.running := by
    intro name h
    unfold sampleStartSession
    split
    · intro hn; simp at hn
    · intro _; exact List.mem_cons_self _ _
  constructor
  · intro s hs
    simpa [Up, sampleStart] using started "gt-mayor" s hs
  · intro s hs
    simpa [Up, sampleStart] using started "gt-deacon" s hs
  · intro name s h
    simpa [Up, sampleStart] using h
  · intro name other s h
    simpa [Up, sampleStart] using h
  · intro name s h
    have h2 : name ∈ s.running := by simpa [Up, sampleStart] using h
    simpa [Up, sampleStart] using grow name "gt-mayor" s h2
  · intro name s h
    have h2 : name ∈ s.running := by simpa [Up, sampleStart] using h
    simpa [Up, sampleStart] using grow name "gt-deacon" s h2

/-- C7, as amended: when `HasSession` reports true for the Mayor and then for
the Deacon, `runStart` makes no session-start invocation and returns success;
and over a persistent session host in which a successful start makes
`HasSession` report true, if a first call of `runStart` returns success then a
second call right after it makes no session-start invocation. -/
theorem runStart_idempotent {σ : Type} (E : StartEnv σ) (s0 : σ) :
    let r := runStart E s0
    (∀ townRoot s1 eM s2 eD s3,
      E.FindFromCwdOrError s0 = (.ok townRoot, s1) →
      E.HasSession E.MayorSessionName s1 = ((true, eM), s2) →
      E.HasSession E.DeaconSessionName s2 = ((true, eD), s3) →
      r.err = none ∧ (∀ c ∈ r.calls, c.isStart = false) ∧ r.state = s3) ∧
    (SessionsPersist E → r.err = none →
      ∀ c ∈ (runStart E r.state).calls, c.isStart = false) := by
  intro r
  constructor
  · intro townRoot s1 eM s2 eD s3 h1 h2 h4
    simp [r, runStart, h1, h2, h4, StartCall.isStart]
  · intro hP herr
    have hup := runStart_up_after E hP s0 herr
    exact runStart_no_start_of_up E hP r.state hup.1 hup.2

/-- Witness of C7: on the sample host with no session running, the first call
succeeds (it starts both sessions) and the second call starts nothing. -/
theorem runStart_idempotent_witness :
    (runStart (sampleStart none) ⟨[], []⟩).calls
      = [.FindFromCwdOrError (.ok "/town"), .HasSession "gt-mayor" false none,
         .startMayorSession none, .HasSession "gt-deacon" false none,
         .startDeaconSession none] ∧
    (∀ c ∈ (runStart (sampleStart none) (runStart (sampleStart none) ⟨[], []⟩).state).calls,
      c.isStart = false) :=
  ⟨rfl, (runStart_idempotent (sampleStart none) ⟨[], []⟩).2 (sampleStart_persist none) rfl⟩

/-- C7 as stated fails when the first call fails: on the sample host (which is
persistent) with a pending failure for the Mayor, the first call stops at the
failed `startMayorSession`, and the second call right after it invokes both
`startMayorSession` and `startDeaconSession`. -/
theorem runStart_second_call_starts :
    SessionsPersist (sampleStart none) ∧
    (runStart (sampleStart none) ⟨[], ["gt-mayor"]⟩).calls
      = [.FindFromCwdOrError (.ok "/town"), .HasSession "gt-mayor" false none,
         .startMayorSession (some (.errorString "tmux: cannot create session gt-mayor"))] ∧
    (runStart (sampleStart none) (runStart (sampleStart none) ⟨[], ["gt-mayor"]⟩).state).calls
      = [.FindFromCwdOrError (.ok "/town"), .HasSession "gt-mayor" false none,
         .startMayorSession none, .HasSession "gt-deacon" false none,
         .startDeaconSession none] ∧
    ¬ (∀ c ∈ (runStart (sampleStart none)
        (runStart (sampleStart none) ⟨[], ["gt-mayor"]⟩).state).calls, c.isStart = false) := by
  refine ⟨sampleStart_persist none, rfl, rfl, ?_⟩
  intro h
  have hc : (runStart (sampleStart none)
      (runStart (sampleStart none) ⟨[], ["gt-mayor"]⟩).state).calls
      = [.FindFromCwdOrError (.ok "/town"), .HasSession "gt-mayor" false none,
         .startMayorSession none, .HasSession "gt-deacon" false none,
         .startDeaconSession none] := rfl
  have h2 := h (.startMayorSession none) (by rw [hc]; simp)
  simp [StartCall.isStart] at h2

/-- C9, as amended (the two session names being distinct): when the
`HasSession` query for a session returns an error together with false,
`runStart` attempts to start that session; when it returns an error together
with true, the session is taken as running and is not started; the error of a
query is never returned: the result of `runStart` is the same when every query
error is replaced by nil, and every error `runStart` returns wraps the error of
the workspace lookup or of a start function that was called. -/
theorem runStart_failed_query {σ : Type} (E : StartEnv σ) (s0 : σ)
    (hne : E.MayorSessionName ≠ E.DeaconSessionName) :
    let r := runStart E s0
    (∀ e, StartCall.HasSession E.MayorSessionName false (some e) ∈ r.calls →
      ∃ res, StartCall.startMayorSession res ∈ r.calls) ∧
    (∀ e, StartCall.HasSession E.DeaconSessionName false (some e) ∈ r.calls →
      ∃ res, StartCall.startDeaconSession res ∈ r.calls) ∧
    (∀ e, StartCall.HasSession E.MayorSessionName true (some e) ∈ r.calls →
      ∀ res, StartCall.startMayorSession res ∉ r.calls) ∧
    (∀ e, StartCall.HasSession E.DeaconSessionName true (some e) ∈ r.calls →
      ∀ res, StartCall.startDeaconSession res ∉ r.calls) ∧
    (runStart (silenceQueries E) s0).err = r.err ∧
    (∀ e, r.err = some e →
      (∃ c, StartCall.FindFromCwdOrError (.error c) ∈ r.calls ∧
        e = Errorf_w "not in a Gas Town workspace: " c) ∨
      (∃ c, StartCall.startMayorSession (some c) ∈ r.calls ∧
        e = Errorf_w "starting Mayor: " c) ∨
      (∃ c, StartCall.startDeaconSession (some c) ∈ r.calls ∧
        e = Errorf_w "starting Deacon: " c)) := by
  intro r
  have hne2 : E.DeaconSessionName ≠ E.MayorSessionName := fun h => hne h.symm
  rcases h1 : E.FindFromCwdOrError s0 with ⟨_ | townRoot, s1⟩
  · simp [r, runStart, h1, silenceQueries]
  rcases h2 : E.HasSession E.MayorSessionName s1 with ⟨⟨_ | _, eM⟩, s2⟩
  · rcases h3 : E.startMayorSession s2 with ⟨_ | em, s3⟩
    · rcases h4 : E.HasSession E.DeaconSessionName s3 with ⟨⟨_ | _, eD⟩, s4⟩
      · rcases h5 : E.startDeaconSession s4 with ⟨_ | ed, s5⟩ <;>
          simp [r, runStart, h1, h2, h3, h4, h5, silenceQueries, hne, hne2]
      · simp [r, runStart, h1, h2, h3, h4, silenceQueries, hne, hne2]
    · simp [r, runStart, h1, h2, h3, silenceQueries, hne, hne2]
  · rcases h4 : E.HasSession E.DeaconSessionName s2 with ⟨⟨_ | _, eD⟩, s4⟩
    · rcases h5 : E.startDeaconSession s4 with ⟨_ | ed, s5⟩ <;>
        simp [r, runStart, h1, h2, h4, h5, silenceQueries, hne, hne2]
    · simp [r, runStart, h1, h2, h4, silenceQueries, hne, hne2]

/-- Witness of C9: on the sample host with no session running and every query
returning an error together with false, both sessions are started and the run
succeeds. -/
theorem runStart_failed_query_witness :
    (∃ res, StartCall.startMayorSession res ∈
      (runStart (sampleStart (some (.errorString "tmux: server busy"))) ⟨[], []⟩).calls) ∧
    (runStart (sampleStart (some (.errorString "tmux: server busy"))) ⟨[], []⟩).err = none :=
  ⟨(runStart_failed_query (sampleStart (some (.errorString "tmux: server busy"))) ⟨[], []⟩
      (by decide)).1 (.errorString "tmux: server busy") (by
      have hc :
          (runStart (sampleStart (some (.errorString "tmux: server busy"))) ⟨[], []⟩).calls
          = [.FindFromCwdOrError (.ok "/town"),
             .HasSession "gt-mayor" false (some (.errorString "tmux: server busy")),
             .startMayorSession none,
             .HasSession "gt-deacon" false (some (.errorString "tmux: server busy")),
             .startDeaconSession none] := rfl
      rw [hc]
      exact List.mem_cons_of_mem _ (List.mem_cons_self _ _)),
    rfl⟩

/-- C9 as stated fails for the Boolean true: on the sample host with both
sessions running and every query returning an error together with true, both
queries fail and neither session is started. -/
theorem runStart_query_error_with_true :
    (runStart (sampleStart (some (.errorString "tmux: server busy")))
      ⟨["gt-mayor", "gt-deacon"], []⟩).calls
      = [.FindFromCwdOrError (.ok "/town"),
         .HasSession "gt-mayor" true (some (.errorString "tmux: server busy")),
         .HasSession "gt-deacon" true (some (.errorString "tmux: server busy"))] ∧
    (runStart (sampleStart (some (.errorString "tmux: server busy")))
      ⟨["gt-mayor", "gt-deacon"], []⟩).err = none :=
  ⟨rfl, rfl⟩

end Gastown
